import Mathlib

/-!
Verification of the CSV chart CLI tool (`src/main.py`) against its
natural-language specification.  The embedding models the core pipeline:
reading the input stream (`read_csv_data`), parsing CSV into a typed frame
(`parse_csv` with its trusting/manual two-strategy design), selecting the
chart type from the column count (`main`, lines 323-336), and the three
renderers (`create_histogram`, `create_scatter_plot`, `create_hexbin_plot`)
with their validation and statistics annotations.

Numeric cells are modelled as exact rationals.  Python `float(...)` /
`pandas.to_numeric` acceptance of finite decimal literals is modelled by
`parseFiniteFloat`; the special literals `inf`/`infinity`/`nan` are counted
as accepted by `pyFloatAccepts` (used for the header heuristic, where only
success/failure matters) but lie outside the rational value domain, as do
numeric-literal underscores.  A pandas NaN statistic is modelled as `none` /
a Boolean `corrIsNaN` flag rather than a value.
-/

deriving instance DecidableEq for Except

namespace ChartTool

/- ## Python float-literal parsing -/

/-- Whitespace characters stripped by Python's `str.strip()` (ASCII subset). -/
def isPyWs (c : Char) : Bool :=
  c = ' ' || c = '\t' || c = '\n' || c = '\r' || c = '\x0b' || c = '\x0c'

/-- Strip leading and trailing whitespace, as `str.strip()` does. -/
def stripWs (cs : List Char) : List Char :=
  ((cs.dropWhile isPyWs).reverse.dropWhile isPyWs).reverse

/-- Split an optional leading sign; returns (isNegative, rest). -/
def splitSign : List Char → Bool × List Char
  | '+' :: cs => (false, cs)
  | '-' :: cs => (true, cs)
  | cs => (false, cs)

/-- Numeric value of a digit run (most significant first). -/
def digitsToNat (ds : List Char) : ℕ :=
  ds.foldl (fun a c => 10 * a + (c.toNat - 48)) 0

/-- A non-empty run of decimal digits. -/
def isDigits (ds : List Char) : Bool :=
  !ds.isEmpty && ds.all Char.isDigit

/-- Split at the first `.` character, if any. -/
def splitDot : List Char → List Char × Option (List Char)
  | [] => ([], none)
  | c :: cs =>
    if c = '.' then ([], some cs)
    else
      let (a, b) := splitDot cs
      (c :: a, b)

/-- Split at the first `e`/`E` character, if any. -/
def splitOnExp : List Char → List Char × Option (List Char)
  | [] => ([], none)
  | c :: cs =>
    if c = 'e' || c = 'E' then ([], some cs)
    else
      let (a, b) := splitOnExp cs
      (c :: a, b)

/-- Signed decimal exponent part after `e`/`E`. -/
def parseExpPart (cs : List Char) : Option ℤ :=
  let (neg, ds) := splitSign cs
  if isDigits ds then
    some (if neg then -(digitsToNat ds : ℤ) else (digitsToNat ds : ℤ))
  else none

/-- Unsigned mantissa: `D+`, `D+.D*`, or `.D+` (at least one digit overall). -/
def parseMantissa (cs : List Char) : Option ℚ :=
  match splitDot cs with
  | (ds, none) => if isDigits ds then some (digitsToNat ds : ℚ) else none
  | (ip, some fp) =>
    if ip.all Char.isDigit && fp.all Char.isDigit && (!ip.isEmpty || !fp.isEmpty) then
      some ((digitsToNat ip : ℚ) + (digitsToNat fp : ℚ) / (10 : ℚ) ^ fp.length)
    else none

/-- Exact rational value of a finite Python float literal: optional
whitespace and sign, mantissa, optional exponent.  `none` when Python's
`float(...)` (and `pandas.to_numeric`) would reject the string, or when the
literal denotes a non-finite value outside the modelled domain. -/
def parseFiniteFloat (s : String) : Option ℚ :=
  let cs := stripWs s.toList
  let (neg, cs2) := splitSign cs
  let (mant, exp?) := splitOnExp cs2
  match parseMantissa mant with
  | none => none
  | some m =>
    let sm := if neg then -m else m
    match exp? with
    | none => some sm
    | some ecs =>
      match parseExpPart ecs with
      | none => none
      | some e => some (sm * (10 : ℚ) ^ e)

/-- The case-insensitive special words accepted by Python's `float(...)`
in addition to finite literals. -/
def isInfNanWord (cs : List Char) : Bool :=
  let lw := cs.map Char.toLower
  lw = "inf".toList || lw = "infinity".toList || lw = "nan".toList

/-- Whether Python's `float(s)` succeeds (used by the header heuristic at
`src/main.py:101`, where only success/failure is observed). -/
def pyFloatAccepts (s : String) : Bool :=
  (parseFiniteFloat s).isSome || isInfNanWord (splitSign (stripWs s.toList)).2

/- ## The data model: typed frames -/

/-- Column payload: a pandas column is either of a numeric dtype or an
object (textual) dtype. -/
inductive ColData where
  | num (qs : List ℚ)
  | txt (ss : List String)
deriving DecidableEq, Repr

/-- A named column of a frame. -/
structure Col where
  name : String
  data : ColData
deriving DecidableEq, Repr

/-- A parsed table: the ordered columns of a pandas DataFrame. -/
abbrev Frame := List Col

/-- Number of cells in a column. -/
def colLen : ColData → ℕ
  | .num qs => qs.length
  | .txt ss => ss.length

/-- `len(df)`: the row count, read off the first column (frames built by
the loader are rectangular). -/
def frameRowCount : Frame → ℕ
  | [] => 0
  | c :: _ => colLen c.data

/-- All-or-nothing traversal: `some` iff `f` succeeds on every element
(the failure mode of `pandas.to_numeric` over a column). -/
def seqOpt {α β : Type} (f : α → Option β) : List α → Option (List β)
  | [] => some []
  | a :: as =>
    match f a, seqOpt f as with
    | some b, some bs => some (b :: bs)
    | _, _ => none

/-- `pd.to_numeric` on a column (`src/main.py:118`, `:136`, `:182`, `:253`):
identity on an already-numeric column, and on a textual column it succeeds
iff every cell parses, else raises (`none`). -/
def toNumericData : ColData → Option ColData
  | .num qs => some (.num qs)
  | .txt ss => (seqOpt parseFiniteFloat ss).map ColData.num

/-- Label lookup `df[name]` (first match; column names are unique in
frames produced by the loader). -/
def getCol : Frame → String → Option ColData
  | [], _ => none
  | c :: cs, n => if c.name = n then some c.data else getCol cs n

/-- Label assignment `df[name] = data` (replaces every column with that
label, as pandas does; with unique names, exactly one). -/
def setCol : Frame → String → ColData → Frame
  | [], _, _ => []
  | c :: cs, n, d =>
    if c.name = n then ⟨c.name, d⟩ :: setCol cs n d else c :: setCol cs n d

/- ## The chart selector (`main`, src/main.py:323-336) -/

inductive ChartType where
  | histogram | scatter | hexbin
deriving DecidableEq, Repr

/-- The requested `--chart-type` option. -/
inductive ReqType where
  | auto | histogram | scatter | hexbin
deriving DecidableEq, Repr

inductive SelectorError where
  | autoDetection (n : ℕ)
  | columnMismatch (t : ChartType) (n : ℕ)
deriving DecidableEq, Repr

/-- The `auto` resolution step (src/main.py:323-330): 2 columns resolve to
histogram, 3 to scatter, anything else raises the auto-detection failure.
An explicit request passes through. -/
def autoDetect (n : ℕ) (r : ReqType) : Except SelectorError ChartType :=
  match r with
  | .auto =>
    if n = 2 then .ok .histogram
    else if n = 3 then .ok .scatter
    else .error (.autoDetection n)
  | .histogram => .ok .histogram
  | .scatter => .ok .scatter
  | .hexbin => .ok .hexbin

/-- The compatibility check (src/main.py:332-336): histogram needs exactly
2 columns, scatter and hexbin exactly 3. -/
def validateType (n : ℕ) (t : ChartType) : Except SelectorError ChartType :=
  if t = .histogram ∧ n ≠ 2 then .error (.columnMismatch t n)
  else if (t = .scatter ∨ t = .hexbin) ∧ n ≠ 3 then .error (.columnMismatch t n)
  else .ok t

/-- The full selector: auto-resolution followed by the compatibility
check, exactly as `main` sequences them. -/
def resolveChart (n : ℕ) (r : ReqType) : Except SelectorError ChartType :=
  match autoDetect n r with
  | .ok t => validateType n t
  | .error e => .error e

/- ## The loader (`read_csv_data` and `parse_csv`, src/main.py:73-122) -/

/-- How a `pd.read_csv` failure is classified: a structural error
(inconsistent dialect, malformed quoting — pandas `ParserError`) or any
other exception kind (e.g. `EmptyDataError`).  The distinction exists only
in the specification; the shallow embedding takes the outcome of the
external pandas call as a parameter. -/
inductive PdReadError where
  | structural
  | nonStructural
deriving DecidableEq, Repr

/-- Errors surfaced by the modelled pipeline. -/
inductive ParseErr where
  /-- `ValueError("CSV file is empty")` at src/main.py:97. -/
  | emptyCsv
  /-- the uncaught `IndexError` from `rows[0][0]` at src/main.py:101 when
  the first row has no fields (only `ValueError` is handled there). -/
  | indexError
  /-- non-rectangular data handed to `pd.DataFrame` (src/main.py:114);
  pandas pads short rows with NaN and rejects over-long rows — outside the
  modelled rectangular domain and not exercised by any theorem below. -/
  | shapeMismatch
deriving DecidableEq, Repr

/-- Header-vs-headerless resolution of the manual fallback parse
(src/main.py:99-111): if `float(rows[0][0])` succeeds there is no header
row, every row is data and names `Column_1..Column_N` are synthesized
(`N = len(rows[0])`); on `ValueError` the first row is the header.  An
empty first row makes `rows[0][0]` raise an uncaught `IndexError`. -/
def headerSplit (rows : List (List String)) :
    Except ParseErr (List String × List (List String)) :=
  match rows with
  | [] => .error .emptyCsv
  | r0 :: rest =>
    match r0 with
    | [] => .error .indexError
    | c0 :: _ =>
      if pyFloatAccepts c0 then
        .ok ((List.range r0.length).map (fun i => "Column_" ++ toString (i + 1)), rows)
      else
        .ok (r0, rest)

/-- Column-wise numeric coercion of the manual parse (src/main.py:115-120):
`pd.to_numeric` per column, keeping the column textual when it raises. -/
def buildCol (name : String) (cells : List String) : Col :=
  match seqOpt parseFiniteFloat cells with
  | some qs => ⟨name, .num qs⟩
  | none => ⟨name, .txt cells⟩

/-- Column `j` of the row-major data. -/
def colCells (dataRows : List (List String)) (j : ℕ) : List String :=
  dataRows.map (fun r => r[j]?.getD "")

/-- Build the columns for the headers, left to right. -/
def buildFrameAux : List String → ℕ → List (List String) → Frame
  | [], _, _ => []
  | h :: hs, j, rows => buildCol h (colCells rows j) :: buildFrameAux hs (j + 1) rows

/-- `pd.DataFrame(data_rows, columns=headers)` followed by the per-column
coercion loop, on rectangular data. -/
def buildFrame (headers : List String) (dataRows : List (List String)) :
    Except ParseErr Frame :=
  if dataRows.all (fun r => r.length = headers.length) then
    .ok (buildFrameAux headers 0 dataRows)
  else .error .shapeMismatch

/-- The manual fallback parse of src/main.py:92-122. -/
def manual_parse (rows : List (List String)) : Except ParseErr Frame := do
  let (hs, ds) ← headerSplit rows
  buildFrame hs ds

/-- `parse_csv` (src/main.py:85-122): on a trusting-parse success the
frame is accepted as-is; the `except Exception` handler catches every
error kind, so any failure — whichever `PdReadError` it is — runs the
manual fallback over the raw comma-split rows. -/
def parse_csv (trusting : Except PdReadError Frame) (rows : List (List String)) :
    Except ParseErr Frame :=
  match trusting with
  | .ok df => .ok df
  | .error _ => manual_parse rows

/-- Pipeline-level errors visible at the process boundary. -/
inductive AppErr where
  /-- `ValueError("No data provided via stdin")` at src/main.py:79. -/
  | emptyInput
  | parse (e : ParseErr)
deriving DecidableEq, Repr

/-- `read_csv_data` (src/main.py:73-83): piped input whose content strips
to nothing fails; otherwise the stream is handed on unchanged. -/
def read_csv_data (isStdin : Bool) (content : String) : Except AppErr String :=
  if isStdin then
    if stripWs content.toList = [] then .error .emptyInput else .ok content
  else .ok content

/-- The Loader stage of `main` (src/main.py:316-317): `read_csv_data`
runs first; only when it succeeds is `parse_csv` attempted.  The outcomes
of the external pandas/csv calls on the content are passed as oracles. -/
def load_and_parse (isStdin : Bool) (content : String)
    (trusting : Except PdReadError Frame) (rows : List (List String)) :
    Except AppErr Frame :=
  match read_csv_data isStdin content with
  | .error e => .error e
  | .ok _ =>
    match parse_csv trusting rows with
    | .ok f => .ok f
    | .error e => .error (.parse e)

/- ## Statistics (pandas mean/std/corr over numeric columns) -/

/-- `Series.mean()`: NaN (`none`) on an empty column. -/
def pdMean (qs : List ℚ) : Option ℚ :=
  if qs.isEmpty then none else some (qs.sum / (qs.length : ℚ))

/-- `Series.std()` squared — the sample variance with divisor `n - 1`
(pandas default `ddof=1`); NaN (`none`) for fewer than two values.  The
annotated standard deviation is its square root (`histStd`). -/
def pdSampleVar (qs : List ℚ) : Option ℚ :=
  if qs.length < 2 then none
  else
    some (((qs.map (fun q => (q - qs.sum / (qs.length : ℚ)) ^ 2)).sum) /
      ((qs.length - 1 : ℕ) : ℚ))

/-- Sum of squared deviations from the mean. -/
def sqDev (qs : List ℚ) : ℚ :=
  (qs.map (fun q => (q - qs.sum / (qs.length : ℚ)) ^ 2)).sum

/-- Whether `Series.corr` (Pearson) yields NaN: fewer than two points, or
zero variance in either series (division by a zero denominator).  On
finite data `corr` returns NaN in these cases — it does not raise. -/
def pandasCorrIsNaN (xs ys : List ℚ) : Bool :=
  decide (xs.length < 2) || decide (sqDev xs = 0) || decide (sqDev ys = 0)

/- ## The renderers (src/main.py:124-288) -/

/-- Renderer-level failures.  `wrongCols` is the in-renderer column-count
`ValueError` ("Expected k columns ... got n"); `nonNumeric` is the
coercion `ValueError` naming the offending column. -/
inductive RenderErr where
  | wrongCols (expected got : ℕ)
  | nonNumeric (col : String)
deriving DecidableEq, Repr

/-- One step of the validation loop (src/main.py:179-184, 250-255, and the
single-column variant at 133-138): skip an already-numeric column, else
`df[n] = pd.to_numeric(df[n])`, raising the per-column error on failure. -/
def coerceCol (f : Frame) (n : String) : Except String Frame :=
  match getCol f n with
  | none => .error n
  | some (.num _) => .ok f
  | some (.txt ss) =>
    match seqOpt parseFiniteFloat ss with
    | some qs => .ok (setCol f n (.num qs))
    | none => .error n

/-- The `for col in [...]` validation loop.  On failure it reports the
offending column together with the frame state at that moment — earlier
columns have already been coerced in place. -/
def validateCols : Frame → List String → Option String × Frame
  | f, [] => (none, f)
  | f, n :: rest =>
    match coerceCol f n with
    | .ok f' => validateCols f' rest
    | .error c => (some c, f)

/-- Extract a (post-validation) numeric column's values. -/
def numValsOf (f : Frame) (n : String) : List ℚ :=
  match getCol f n with
  | some (.num qs) => qs
  | _ => []

/-- The histogram annotation box (src/main.py:157-164): mean, sample
standard deviation (recorded here by its square `svar`) and `len(df)`. -/
structure HistResult where
  mean : Option ℚ
  svar : Option ℚ
  count : ℕ
deriving DecidableEq, Repr

/-- The annotated standard deviation: `Series.std()` is the square root of
the sample variance. -/
noncomputable def histStd (r : HistResult) : Option ℝ :=
  r.svar.map (fun q => Real.sqrt (q : ℝ))

/-- `create_histogram` (src/main.py:124-167): its own 2-column check, the
value-column coercion, then the stats annotation.  The second component is
the caller-visible frame (the function mutates `df` in place). -/
def create_histogram (f : Frame) : Except RenderErr HistResult × Frame :=
  match f with
  | [_cid, cv] =>
    match validateCols f [cv.name] with
    | (some c, f') => (.error (.nonNumeric c), f')
    | (none, f') =>
      let vs := numValsOf f' cv.name
      (.ok ⟨pdMean vs, pdSampleVar vs, frameRowCount f'⟩, f')
  | other => (.error (.wrongCols 2 other.length), other)

/-- The correlation/point-count annotation shared by the scatter and
hexbin stats boxes.  `corrIsNaN` records whether the formatted correlation
reads `nan` (Python's `f-string` renders a float NaN as the text "nan";
`Series.corr` never raises on numeric data, so the `except` handler around
the annotation does not fire). -/
structure CorrStats where
  corrIsNaN : Bool
  points : ℕ
deriving DecidableEq, Repr

/-- `create_scatter_plot`'s outcome: `ann` is the stats annotation, which
is attached whenever the `try` block completes. -/
structure ScatterResult where
  ann : Option CorrStats
deriving DecidableEq, Repr

/-- `create_scatter_plot` (src/main.py:240-288): 3-column check, x-then-y
coercion, then the correlation annotation (always attached: `corr` and
`len` raise nothing on numeric columns). -/
def create_scatter_plot (f : Frame) : Except RenderErr ScatterResult × Frame :=
  match f with
  | [_cid, cx, cy] =>
    match validateCols f [cx.name, cy.name] with
    | (some c, f') => (.error (.nonNumeric c), f')
    | (none, f') =>
      let xs := numValsOf f' cx.name
      let ys := numValsOf f' cy.name
      (.ok ⟨some ⟨pandasCorrIsNaN xs ys, frameRowCount f'⟩⟩, f')
  | other => (.error (.wrongCols 3 other.length), other)

/-- `create_hexbin_plot`'s outcome.  The max-bin-density number is not
modelled (hexagonal geometry is out of scope); `ann` records the
correlation/point-count part of the stats box. -/
structure HexbinResult where
  ann : Option CorrStats
deriving DecidableEq, Repr

/-- `create_hexbin_plot` (src/main.py:169-238): identical 3-column check
and x-then-y coercion; in its `try` block, `hb.get_array().max()` raises on
an empty (zero-row) density array, so there — and only there — the whole
annotation is skipped by the `except` handler. -/
def create_hexbin_plot (f : Frame) : Except RenderErr HexbinResult × Frame :=
  match f with
  | [_cid, cx, cy] =>
    match validateCols f [cx.name, cy.name] with
    | (some c, f') => (.error (.nonNumeric c), f')
    | (none, f') =>
      let xs := numValsOf f' cx.name
      let ys := numValsOf f' cy.name
      (.ok ⟨if frameRowCount f' = 0 then none
            else some ⟨pandasCorrIsNaN xs ys, frameRowCount f'⟩⟩, f')
  | other => (.error (.wrongCols 3 other.length), other)

/- ## Concrete frames used by witnesses and counterexamples -/

/-- A 3-column numeric frame whose y column is constant. -/
def constYFrame : Frame :=
  [⟨"id", .num [1, 2, 3]⟩, ⟨"x", .num [1, 2, 3]⟩, ⟨"y", .num [5, 5, 5]⟩]

/-- A 3-column numeric frame with a single row. -/
def oneRowFrame : Frame :=
  [⟨"id", .num [1]⟩, ⟨"x", .num [2]⟩, ⟨"y", .num [3]⟩]

/-- The 2-column frame with value column `[10, 20, 30]`. -/
def demoHistFrame : Frame :=
  [⟨"id", .num [1, 2, 3]⟩, ⟨"value", .num [10, 20, 30]⟩]

/-- A frame with a single textual column. -/
def oneColFrame : Frame := [⟨"only", .txt ["a"]⟩]

/- ## Helper lemmas -/

theorem seqOpt_length {α β : Type} (f : α → Option β) :
    ∀ {l : List α} {l' : List β}, seqOpt f l = some l' → l'.length = l.length := by
  intro l
  induction l with
  | nil =>
    intro l' h
    simp only [seqOpt, Option.some.injEq] at h
    subst h
    rfl
  | cons a as ih =>
    intro l' h
    simp only [seqOpt] at h
    cases hfa : f a with
    | none => rw [hfa] at h; exact absurd h (by simp)
    | some b =>
      cases hrest : seqOpt f as with
      | none => rw [hfa, hrest] at h; exact absurd h (by simp)
      | some bs =>
        rw [hfa, hrest] at h
        cases h
        simp [ih hrest]

theorem setCol_rowCount {f : Frame} {n : String} {d dOld : ColData}
    (hget : getCol f n = some dOld) (hlen : colLen d = colLen dOld) :
    frameRowCount (setCol f n d) = frameRowCount f := by
  cases f with
  | nil => simp [getCol] at hget
  | cons c rest =>
    by_cases hc : c.name = n
    · simp only [getCol, if_pos hc, Option.some.injEq] at hget
      subst hget
      simp only [setCol, if_pos hc, frameRowCount]
      exact hlen
    · simp [setCol, hc, frameRowCount]

theorem coerceCol_rowCount {f f' : Frame} {n : String}
    (h : coerceCol f n = .ok f') : frameRowCount f' = frameRowCount f := by
  cases hget : getCol f n with
  | none => simp [coerceCol, hget] at h
  | some d =>
    cases d with
    | num qs =>
      simp only [coerceCol, hget, Except.ok.injEq] at h
      subst h
      rfl
    | txt ss =>
      cases hq : seqOpt parseFiniteFloat ss with
      | none => simp [coerceCol, hget, hq] at h
      | some qs =>
        simp only [coerceCol, hget, hq, Except.ok.injEq] at h
        subst h
        exact setCol_rowCount hget (by simp [colLen, seqOpt_length _ hq])

theorem validateCols_rowCount :
    ∀ (ns : List String) (f : Frame) (r : Option String × Frame),
      validateCols f ns = r → frameRowCount r.2 = frameRowCount f := by
  intro ns
  induction ns with
  | nil => intro f r h; cases h; rfl
  | cons n rest ih =>
    intro f r h
    unfold validateCols at h
    cases hc : coerceCol f n with
    | ok f1 => rw [hc] at h; rw [ih f1 r h, coerceCol_rowCount hc]
    | error c => rw [hc] at h; cases h; rfl

theorem stripWs_nil_iff (cs : List Char) :
    stripWs cs = [] ↔ ∀ c ∈ cs, isPyWs c := by
  unfold stripWs
  constructor
  · intro h c hc
    rw [List.reverse_eq_nil_iff, List.dropWhile_eq_nil_iff] at h
    have hall : ∀ x ∈ cs.dropWhile isPyWs, isPyWs x := by
      intro x hx
      exact h x (by simpa using hx)
    have hsplit := List.takeWhile_append_dropWhile isPyWs cs
    rw [← hsplit] at hc
    rcases List.mem_append.1 hc with h1 | h1
    · exact List.mem_takeWhile_imp h1
    · exact hall c h1
  · intro h
    have h1 : cs.dropWhile isPyWs = [] := List.dropWhile_eq_nil_iff.2 h
    simp [h1]

theorem validateCols_x_fails {cid cx cy : Col} {ss : List String}
    (h1 : cid.name ≠ cx.name)
    (hx : cx.data = .txt ss) (hf : seqOpt parseFiniteFloat ss = none) :
    validateCols [cid, cx, cy] [cx.name, cy.name] = (some cx.name, [cid, cx, cy]) := by
  simp [validateCols, coerceCol, getCol, h1, hx, hf]

theorem validateCols_y_fails_after_x {cid cy : Col} {xn : String}
    {ss ts : List String} {qs : List ℚ}
    (h1 : cid.name ≠ xn) (h2 : cid.name ≠ cy.name) (h3 : xn ≠ cy.name)
    (hx : seqOpt parseFiniteFloat ss = some qs)
    (hy : cy.data = .txt ts) (hf : seqOpt parseFiniteFloat ts = none) :
    validateCols [cid, ⟨xn, .txt ss⟩, cy] [xn, cy.name] =
      (some cy.name, [cid, ⟨xn, .num qs⟩, cy]) := by
  simp [validateCols, coerceCol, getCol, setCol, h1, h2, h3, Ne.symm h3, hx, hy, hf]

theorem validateCols_y_fails_x_num {cid cy : Col} {xn : String}
    {qs : List ℚ} {ts : List String}
    (h1 : cid.name ≠ xn) (h2 : cid.name ≠ cy.name) (h3 : xn ≠ cy.name)
    (hy : cy.data = .txt ts) (hf : seqOpt parseFiniteFloat ts = none) :
    validateCols [cid, ⟨xn, .num qs⟩, cy] [xn, cy.name] =
      (some cy.name, [cid, ⟨xn, .num qs⟩, cy]) := by
  simp [validateCols, coerceCol, getCol, h1, h2, h3, hy, hf]

/- ## Claim theorems -/

/-- C1: chart-type resolution follows the fixed table.  For a parsed
table with `f.length` columns, `auto` resolves to histogram when N = 2
and scatter when N = 3 and otherwise fails with the auto-detection error;
an explicit histogram request succeeds only at N = 2, and explicit
scatter/hexbin requests only at N = 3, failing otherwise with the
column-mismatch error. -/
theorem chart_resolution_table (f : Frame) :
    (resolveChart f.length .auto =
      if f.length = 2 then .ok .histogram
      else if f.length = 3 then .ok .scatter
      else .error (.autoDetection f.length))
  ∧ (resolveChart f.length .histogram =
      if f.length = 2 then .ok .histogram
      else .error (.columnMismatch .histogram f.length))
  ∧ (resolveChart f.length .scatter =
      if f.length = 3 then .ok .scatter
      else .error (.columnMismatch .scatter f.length))
  ∧ (resolveChart f.length .hexbin =
      if f.length = 3 then .ok .hexbin
      else .error (.columnMismatch .hexbin f.length)) := by
  by_cases h2 : f.length = 2 <;> by_cases h3 : f.length = 3
  · exact absurd (h2.symm.trans h3) (by decide)
  all_goals simp [resolveChart, autoDetect, validateType, h2, h3]

/-- C2 (code evaluated at the failing inputs): for a 3-column numeric
table with constant y, and for a single-row table, the scatter and hexbin
renderers succeed and still attach the correlation annotation, with the
correlation text rendered as NaN — the annotation is not omitted. -/
theorem scatter_nan_not_omitted :
    create_scatter_plot constYFrame = (.ok ⟨some ⟨true, 3⟩⟩, constYFrame)
  ∧ create_hexbin_plot constYFrame = (.ok ⟨some ⟨true, 3⟩⟩, constYFrame)
  ∧ create_scatter_plot oneRowFrame = (.ok ⟨some ⟨true, 1⟩⟩, oneRowFrame) := by
  have h5 : sqDev [(5 : ℚ), 5, 5] = 0 := by norm_num [sqDev]
  have hc : pandasCorrIsNaN [1, 2, 3] [5, 5, 5] = true := by
    simp +decide [pandasCorrIsNaN, h5]
  have hc1 : pandasCorrIsNaN [2] [3] = true := by
    simp +decide [pandasCorrIsNaN]
  refine ⟨?_, ?_, ?_⟩ <;>
    simp +decide [create_scatter_plot, create_hexbin_plot, constYFrame, oneRowFrame,
      validateCols, coerceCol, getCol, numValsOf, frameRowCount, colLen, hc, hc1]

/-- C3 counterexample: a non-structural trusting-parse error (e.g.
pandas `EmptyDataError`) is caught all the same and triggers the manual
fallback, which here returns a parsed table rather than propagating the
error. -/
theorem nonstructural_error_falls_back :
    parse_csv (.error .nonStructural) [["a", "b"], ["1", "2"]] =
      .ok [⟨"a", .num [1]⟩, ⟨"b", .num [2]⟩] := by
  decide

/-- C3 amended: the fallback to the manual parse is triggered by every
trusting-parse error, structural or not (the handler is a catch-all), and
a trusting-parse success is accepted as-is. -/
theorem fallback_on_every_trusting_error (e : PdReadError)
    (rows : List (List String)) (df : Frame) :
    parse_csv (.error e) rows = manual_parse rows
  ∧ parse_csv (.ok df) rows = .ok df :=
  ⟨rfl, rfl⟩

/-- C4 counterexample: on the non-empty row list `[[]]` (one empty row,
as produced by a lone blank line) the first row has no first field; the
code raises an uncaught IndexError instead of treating the empty first
row as the header with no data rows, as the claim's else-branch states. -/
theorem empty_first_row_index_error :
    headerSplit [[]] = .error .indexError
  ∧ headerSplit [[]] ≠ .ok ([], []) := by
  refine ⟨by decide, by decide⟩

/-- C4 amended: in the fallback manual parse, for every non-empty row
list whose first row is non-empty: if the first field of the first row
parses as a Python float, there is no header row, every row becomes data
and names `Column_1..Column_N` are synthesized for N the first row's
length; otherwise the first row's fields become the column names and the
remaining rows the data. -/
theorem header_detection (c0 : String) (cs : List String)
    (rest : List (List String)) :
    (pyFloatAccepts c0 = true →
      headerSplit ((c0 :: cs) :: rest) =
        .ok ((List.range (c0 :: cs).length).map
              (fun i => "Column_" ++ toString (i + 1)),
             (c0 :: cs) :: rest))
  ∧ (pyFloatAccepts c0 = false →
      headerSplit ((c0 :: cs) :: rest) = .ok (c0 :: cs, rest)) := by
  constructor <;> intro h <;> simp [headerSplit, h]

theorem header_detection_witness :
    headerSplit [["1", "10"], ["2", "20"]] =
      .ok ((List.range 2).map (fun i => "Column_" ++ toString (i + 1)),
           [["1", "10"], ["2", "20"]])
  ∧ headerSplit [["id", "value"], ["1", "10"]] =
      .ok (["id", "value"], [["1", "10"]]) :=
  ⟨(header_detection "1" ["10"] [["2", "20"]]).1 (by decide),
   (header_detection "id" ["value"] [["1", "10"]]).2 (by decide)⟩

/-- C5 counterexample: each renderer does perform its own column-count
check — a 3-column table makes `create_histogram` itself raise the
count error, and a 2-column table makes `create_scatter_plot` and
`create_hexbin_plot` raise theirs. -/
theorem renderers_do_check_columns :
    (create_histogram constYFrame).1 = .error (.wrongCols 2 3)
  ∧ (create_scatter_plot demoHistFrame).1 = .error (.wrongCols 3 2)
  ∧ (create_hexbin_plot demoHistFrame).1 = .error (.wrongCols 3 2) := by
  refine ⟨by decide, by decide, by decide⟩

/-- C5 amended: every renderer duplicates the Selector's column-count
check: on any table whose column count differs from the renderer's
expected shape, the renderer itself raises the "Expected k columns"
error before touching the data. -/
theorem renderer_col_count_guard (f : Frame) :
    (f.length ≠ 2 → (create_histogram f).1 = .error (.wrongCols 2 f.length))
  ∧ (f.length ≠ 3 → (create_scatter_plot f).1 = .error (.wrongCols 3 f.length))
  ∧ (f.length ≠ 3 → (create_hexbin_plot f).1 = .error (.wrongCols 3 f.length)) := by
  obtain _ | ⟨a, _ | ⟨b, _ | ⟨c, _ | ⟨d, t⟩⟩⟩⟩ := f <;>
    refine ⟨fun h => ?_, fun h => ?_, fun h => ?_⟩ <;>
    first
      | exact absurd rfl h
      | rfl

theorem renderer_col_count_guard_witness :
    (create_histogram oneColFrame).1 = .error (.wrongCols 2 1)
  ∧ (create_scatter_plot oneColFrame).1 = .error (.wrongCols 3 1)
  ∧ (create_hexbin_plot oneColFrame).1 = .error (.wrongCols 3 1) :=
  ⟨(renderer_col_count_guard oneColFrame).1 (by decide),
   (renderer_col_count_guard oneColFrame).2.1 (by decide),
   (renderer_col_count_guard oneColFrame).2.2 (by decide)⟩

/-- C9: numeric coercion is representation-insensitive — the textual
cells "10" and "10.0" coerce to the same numeric column — and idempotent:
whenever coercion succeeds, re-applying it to the result succeeds and
leaves the values unchanged. -/
theorem coercion_idempotent :
    (toNumericData (.txt ["10"]) = toNumericData (.txt ["10.0"])
      ∧ toNumericData (.txt ["10"]) = some (.num [10]))
  ∧ ∀ d d' : ColData, toNumericData d = some d' → toNumericData d' = some d' := by
  have h10 : parseFiniteFloat "10" = some 10 := by decide
  have h100 : parseFiniteFloat "10.0" = some 10 := by
    simp +decide [parseFiniteFloat, stripWs, splitSign, splitOnExp, splitDot,
      parseMantissa, isDigits, digitsToNat, isPyWs, List.dropWhile]
  refine ⟨⟨?_, ?_⟩, ?_⟩
  · simp [toNumericData, seqOpt, h10, h100]
  · simp [toNumericData, seqOpt, h10]
  intro d d' h
  cases d with
  | num qs =>
    simp only [toNumericData, Option.some.injEq] at h
    subst h
    rfl
  | txt ss =>
    cases hq : seqOpt parseFiniteFloat ss with
    | none => simp [toNumericData, hq] at h
    | some qs =>
      simp only [toNumericData, hq, Option.map, Option.some.injEq] at h
      subst h
      rfl

theorem coercion_idempotent_witness :
    toNumericData (.num [10]) = some (.num [10]) :=
  coercion_idempotent.2 (.txt ["10"]) (.num [10]) (by decide)

/-- C6: the correlation and density renderers validate x first, then y,
raising immediately on the first non-coercible column and naming it: if
x is not coercible the error names x and the frame is untouched (y is
never attempted); if x is coercible but y is not, the error names y. -/
theorem xy_validation_order (cid cx cy : Col)
    (h1 : cid.name ≠ cx.name) (h2 : cid.name ≠ cy.name) (h3 : cx.name ≠ cy.name) :
    (toNumericData cx.data = none →
       create_scatter_plot [cid, cx, cy] =
         (.error (.nonNumeric cx.name), [cid, cx, cy])
     ∧ create_hexbin_plot [cid, cx, cy] =
         (.error (.nonNumeric cx.name), [cid, cx, cy]))
  ∧ (toNumericData cx.data ≠ none → toNumericData cy.data = none →
       (create_scatter_plot [cid, cx, cy]).1 = .error (.nonNumeric cy.name)
     ∧ (create_hexbin_plot [cid, cx, cy]).1 = .error (.nonNumeric cy.name)) := by
  obtain ⟨xn, xd⟩ := cx
  constructor
  · intro hx
    cases xd with
    | num qs => simp [toNumericData] at hx
    | txt ss =>
      have hss : seqOpt parseFiniteFloat ss = none := by
        simpa [toNumericData] using hx
      have hv := @validateCols_x_fails cid ⟨xn, ColData.txt ss⟩ cy ss h1 rfl hss
      constructor
      · simp [create_scatter_plot, hv]
      · simp [create_hexbin_plot, hv]
  · intro hx hy
    obtain ⟨ts, hdy, hts⟩ : ∃ ts, cy.data = .txt ts
        ∧ seqOpt parseFiniteFloat ts = none := by
      cases hdy : cy.data with
      | num qs => rw [hdy] at hy; simp [toNumericData] at hy
      | txt ts =>
        rw [hdy] at hy
        exact ⟨ts, rfl, by simpa [toNumericData] using hy⟩
    cases xd with
    | num qs =>
      have hv := @validateCols_y_fails_x_num cid cy xn qs ts h1 h2 h3 hdy hts
      constructor
      · simp [create_scatter_plot, hv]
      · simp [create_hexbin_plot, hv]
    | txt ss =>
      cases hq : seqOpt parseFiniteFloat ss with
      | none => simp [toNumericData, hq] at hx
      | some qs =>
        have hv := validateCols_y_fails_after_x h1 h2 h3 hq hdy hts
        constructor
        · simp [create_scatter_plot, hv]
        · simp [create_hexbin_plot, hv]

theorem xy_validation_order_witness :
    create_scatter_plot [⟨"id", .num [1]⟩, ⟨"x", .txt ["a"]⟩, ⟨"y", .num [2]⟩] =
      (.error (.nonNumeric "x"),
       [⟨"id", .num [1]⟩, ⟨"x", .txt ["a"]⟩, ⟨"y", .num [2]⟩])
  ∧ (create_scatter_plot [⟨"id", .num [1]⟩, ⟨"x", .num [1]⟩, ⟨"y", .txt ["b"]⟩]).1 =
      .error (.nonNumeric "y") :=
  ⟨((xy_validation_order ⟨"id", .num [1]⟩ ⟨"x", .txt ["a"]⟩ ⟨"y", .num [2]⟩
      (by decide) (by decide) (by decide)).1 (by decide)).1,
   ((xy_validation_order ⟨"id", .num [1]⟩ ⟨"x", .num [1]⟩ ⟨"y", .txt ["b"]⟩
      (by decide) (by decide) (by decide)).2 (by decide) (by decide)).1⟩

theorem create_histogram_demo :
    create_histogram demoHistFrame = (.ok ⟨some 20, some 100, 3⟩, demoHistFrame) := by
  have hm : pdMean [(10 : ℚ), 20, 30] = some 20 := by norm_num [pdMean]
  have hv : pdSampleVar [(10 : ℚ), 20, 30] = some 100 := by norm_num [pdSampleVar]
  simp +decide [create_histogram, demoHistFrame, validateCols, coerceCol, getCol,
    numValsOf, frameRowCount, colLen, hm, hv]

/-- C7: the histogram annotation uses the arithmetic mean and the sample
standard deviation (divisor n-1): for value column [10, 20, 30] the
annotated mean is 20 and the annotated standard deviation is 10 (the
square root of the sample variance 100); and for every table the
annotated count is `len(df)`, the table's row count. -/
theorem hist_stats_spec (f : Frame) (r : HistResult) (f' : Frame) :
    ((create_histogram demoHistFrame).1 = .ok ⟨some 20, some 100, 3⟩)
  ∧ histStd ⟨some 20, some 100, 3⟩ = some 10
  ∧ (create_histogram f = (.ok r, f') → r.count = frameRowCount f) := by
  refine ⟨by rw [create_histogram_demo], ?_, ?_⟩
  · have h1 : histStd ⟨some 20, some 100, 3⟩ = some (Real.sqrt ((100 : ℚ) : ℝ)) := rfl
    rw [h1, show ((100 : ℚ) : ℝ) = (10 : ℝ) ^ 2 by norm_num,
      Real.sqrt_sq (by norm_num : (0 : ℝ) ≤ 10)]
  · intro h
    obtain _ | ⟨c1, _ | ⟨c2, _ | ⟨c3, t⟩⟩⟩ := f
    · simp [create_histogram] at h
    · simp [create_histogram] at h
    · cases hv2 : validateCols [c1, c2] [c2.name] with
      | mk e f1 =>
        cases e with
        | some c => simp [create_histogram, hv2] at h
        | none =>
          simp only [create_histogram, hv2, Prod.mk.injEq, Except.ok.injEq] at h
          obtain ⟨hr, hf⟩ := h
          subst hr
          have hrc := validateCols_rowCount [c2.name] [c1, c2] (none, f1) hv2
          simpa using hrc
    · simp [create_histogram] at h

theorem hist_stats_spec_witness :
    (⟨some 20, some 100, 3⟩ : HistResult).count = frameRowCount demoHistFrame :=
  (hist_stats_spec demoHistFrame ⟨some 20, some 100, 3⟩ demoHistFrame).2.2
    create_histogram_demo

/-- C8: for piped (stdin) input that is empty or whitespace-only the
loader fails with the empty-input error before any parsing is attempted
(the result does not depend on any parse outcome); for piped input with
any non-whitespace character this error is never raised. -/
theorem empty_stdin_guard (content : String)
    (t : Except PdReadError Frame) (rows : List (List String)) :
    ((∀ c ∈ content.toList, isPyWs c) →
       load_and_parse true content t rows = .error .emptyInput)
  ∧ ((∃ c ∈ content.toList, ¬ isPyWs c) →
       load_and_parse true content t rows ≠ .error .emptyInput) := by
  constructor
  · intro h
    have hs : stripWs content.data = [] := (stripWs_nil_iff _).2 h
    simp [load_and_parse, read_csv_data, hs]
  · rintro ⟨c, hc, hnc⟩
    have hs : stripWs content.data ≠ [] := fun he =>
      hnc ((stripWs_nil_iff _).1 he c hc)
    cases hp : parse_csv t rows with
    | ok fr => simp [load_and_parse, read_csv_data, hs, hp]
    | error e => simp [load_and_parse, read_csv_data, hs, hp]

theorem empty_stdin_guard_witness :
    load_and_parse true " \n " (.ok []) [] = .error .emptyInput
  ∧ load_and_parse true "a" (.ok []) [] ≠ .error .emptyInput :=
  ⟨(empty_stdin_guard " \n " (.ok []) []).1 (by decide),
   (empty_stdin_guard "a" (.ok []) []).2 (by decide)⟩

/-- C10: renderer validation is not atomic.  For a 3-column table whose x
column is textual but fully coercible and whose y column is not coercible,
both 3-column renderers raise the non-numeric error for y while the
caller-visible frame has already had its x column converted to numeric in
place — a state change despite the error. -/
theorem xy_validation_mutates (cid cy : Col) (xn : String)
    (ss ts : List String) (qs : List ℚ)
    (h1 : cid.name ≠ xn) (h2 : cid.name ≠ cy.name) (h3 : xn ≠ cy.name)
    (hx : seqOpt parseFiniteFloat ss = some qs)
    (hy : cy.data = .txt ts) (hf : seqOpt parseFiniteFloat ts = none) :
    create_scatter_plot [cid, ⟨xn, .txt ss⟩, cy] =
      (.error (.nonNumeric cy.name), [cid, ⟨xn, .num qs⟩, cy])
  ∧ create_hexbin_plot [cid, ⟨xn, .txt ss⟩, cy] =
      (.error (.nonNumeric cy.name), [cid, ⟨xn, .num qs⟩, cy])
  ∧ ([cid, ⟨xn, ColData.txt ss⟩, cy] : Frame) ≠ [cid, ⟨xn, ColData.num qs⟩, cy] := by
  have hv := validateCols_y_fails_after_x h1 h2 h3 hx hy hf
  refine ⟨?_, ?_, ?_⟩
  · simp [create_scatter_plot, hv]
  · simp [create_hexbin_plot, hv]
  · simp

theorem xy_validation_mutates_witness :
    create_scatter_plot
        [⟨"id", .num [1, 2]⟩, ⟨"x", .txt ["1", "2"]⟩, ⟨"y", .txt ["a", "b"]⟩] =
      (.error (.nonNumeric "y"),
       [⟨"id", .num [1, 2]⟩, ⟨"x", .num [1, 2]⟩, ⟨"y", .txt ["a", "b"]⟩]) :=
  (xy_validation_mutates ⟨"id", .num [1, 2]⟩ ⟨"y", .txt ["a", "b"]⟩ "x"
      ["1", "2"] ["a", "b"] [1, 2]
      (by decide) (by decide) (by decide) (by decide) rfl (by decide)).1

end ChartTool
